import Mathlib

/-! Verification development for the `atom` lexical scanner (`src/scan.rs`,
`src/error.rs`).  The scanner state, token and error records, and every
sub-scanner (whitespace, comments, numbers, strings, identifiers/keywords,
operators) are embedded as executable Lean functions over an explicit
character list, mirroring the Rust control flow step by step. -/

namespace Atom

/-- Token kinds, exactly the Rust `TokenType` enumeration. -/
inductive TokenType where
  | Semicolon
  | Plus
  | Minus
  | Star
  | Slash
  | Bang
  | Pipe
  | Ampersand
  | Caret
  | Percent
  | Tilde
  | Dot
  | LeftParen
  | RightParen
  | LeftBracket
  | RightBracket
  | LeftBrace
  | RightBrace
  | NumberLiteral
  | StringLiteral
  | FormattedStringLiteral
  | Identifier
  | TrueLiteral
  | FalseLiteral
  | NullLiteral
  | ThisLiteral
  | SuperLiteral
  | And
  | Or
  | Not
  | Function
  | Class
  | Extends
  | If
  | Else
  | While
  | Do
  | For
  | In
  | Break
  | Continue
  | Return
deriving DecidableEq

/-- Token record: kind, source name, line, column, lexeme (Rust `Token`). -/
structure Token where
  tok : TokenType
  src_name : String
  src_ln : Nat
  src_col : Nat
  src_data : String
deriving DecidableEq

/-- Error record: message, file name, line, column (Rust `Error`). -/
structure Error where
  msg : String
  fname : String
  src_line : Nat
  src_column : Nat
deriving DecidableEq

/-- Scanner state: source name, line counter, column counter, and the
remaining character sequence (Rust `Scanner`, whose `src` field is the not
yet consumed part of the `Chars` iterator). -/
structure Scanner where
  src_name : String
  src_ln : Nat
  src_col : Nat
  src : List Char
deriving DecidableEq

/-- Result of one pull of the scanner iterator: a token, an error, end of
input, or the marker recording that a panicking `unwrap` branch of the
Rust code was reached. -/
inductive PullResult where
  | tok : Token → PullResult
  | err : Error → PullResult
  | eof : PullResult
  | panicked : PullResult
deriving DecidableEq

/-- Single-quote character, written via its code point. -/
def squote : Char := '\x27'

/-- Left curly brace character, written via its code point. -/
def lbrace : Char := '\x7b'

/-- Right curly brace character, written via its code point. -/
def rbrace : Char := '\x7d'

/-- NUL character, the default the Rust code feeds to `unwrap_or`. -/
def nulChar : Char := '\x00'

/-- Rust `char::is_whitespace`: the Unicode White_Space property, encoded
in full (it is a small closed set of code points). -/
def is_whitespace (c : Char) : Bool :=
  decide ((0x9 ≤ c.toNat ∧ c.toNat ≤ 0xD) ∨ c.toNat = 0x20 ∨ c.toNat = 0x85 ∨
    c.toNat = 0xA0 ∨ c.toNat = 0x1680 ∨ (0x2000 ≤ c.toNat ∧ c.toNat ≤ 0x200A) ∨
    c.toNat = 0x2028 ∨ c.toNat = 0x2029 ∨ c.toNat = 0x202F ∨ c.toNat = 0x205F ∨ c.toNat = 0x3000)

/-- Rust `char::is_alphabetic` (the Unicode Alphabetic property), modelled
on the fragment of Unicode this development evaluates on: it is exact on
ASCII and on the Arabic-Indic digit block U+0660..U+0669 (none of whose
members is Alphabetic), and conservatively false elsewhere. -/
def is_alphabetic (c : Char) : Bool := c.isAlpha

/-- Rust `char::is_numeric` (the Unicode N categories), modelled on the
same fragment as `is_alphabetic`: exact on ASCII and on the Arabic-Indic
digits U+0660..U+0669 (category Nd, hence numeric), false elsewhere. -/
def is_numeric (c : Char) : Bool :=
  c.isDigit || decide (0x660 ≤ c.toNat ∧ c.toNat ≤ 0x669)

/-- Rust `char::is_alphanumeric`, which is the disjunction of
`is_alphabetic` and `is_numeric`. -/
def is_alphanumeric (c : Char) : Bool := is_alphabetic c || is_numeric c

/-- Rust `Scanner::new`: line 1, column 0, the full character sequence. -/
def Scanner.new (name source : String) : Scanner :=
  ⟨name, 1, 0, source.data⟩

/-- Rust `Scanner::current_line`. -/
def Scanner.current_line (s : Scanner) : Nat := s.src_ln

/-- Rust `Scanner::current_column`. -/
def Scanner.current_column (s : Scanner) : Nat := s.src_col

/-- Rust `Scanner::peek`. -/
def Scanner.peek (s : Scanner) : Option Char := s.src.head?

/-- State update of `Scanner::pop` when the next character is `c`: the
column is incremented first, and a newline then additionally increments
the line and resets the column to 0. -/
def popSome (c : Char) (rest : List Char) (s : Scanner) : Scanner :=
  let s1 : Scanner := { s with src := rest, src_col := s.src_col + 1 }
  if c = '\n' then { s1 with src_ln := s1.src_ln + 1, src_col := 0 } else s1

/-- Rust `Scanner::pop`: the column is incremented even when the source is
already exhausted, because the increment precedes the `is_some` test. -/
def pop (s : Scanner) : Option Char × Scanner :=
  match s.src with
  | [] => (none, { s with src_col := s.src_col + 1 })
  | c :: rest => (some c, popSome c rest s)

/-- Helper fact used for termination: popping leaves exactly the tail. -/
def popSome_src (c : Char) (rest : List Char) (s : Scanner) :
    (popSome c rest s).src = rest := by
  simp only [popSome]
  split <;> rfl

/-- Rust `Scanner::is_identifier_character`, with its exact boolean
structure (note that the `is_first` disjunct is absorbed by the
`is_alphanumeric` disjunct). -/
def is_identifier_character (ch : Char) (is_first : Bool) : Bool :=
  (is_first && (is_alphabetic ch || ch = '_')) || is_alphanumeric ch || ch = '_'

/-- Rust `Scanner::str_to_keyword`: the fixed keyword table. -/
def str_to_keyword (s : String) : Option TokenType :=
  if s = "true" then some TokenType.TrueLiteral
  else if s = "false" then some TokenType.FalseLiteral
  else if s = "null" then some TokenType.NullLiteral
  else if s = "this" then some TokenType.ThisLiteral
  else if s = "super" then some TokenType.SuperLiteral
  else if s = "and" then some TokenType.And
  else if s = "or" then some TokenType.Or
  else if s = "not" then some TokenType.Not
  else if s = "function" then some TokenType.Function
  else if s = "class" then some TokenType.Class
  else if s = "extends" then some TokenType.Extends
  else if s = "if" then some TokenType.If
  else if s = "else" then some TokenType.Else
  else if s = "while" then some TokenType.While
  else if s = "do" then some TokenType.Do
  else if s = "for" then some TokenType.For
  else if s = "in" then some TokenType.In
  else if s = "break" then some TokenType.Break
  else if s = "continue" then some TokenType.Continue
  else if s = "return" then some TokenType.Return
  else none

/-- Rust `Scanner::operator`: the single-character operator table (the
source maps both `*` and `/` to `Star` in this table), followed by the
`None` check and the token construction at the current cursor. -/
def operator (s : Scanner) (op : Char) : Option Token :=
  let op_type : Option TokenType :=
    if op = ';' then some TokenType.Semicolon
    else if op = '+' then some TokenType.Plus
    else if op = '-' then some TokenType.Minus
    else if op = '*' then some TokenType.Star
    else if op = '/' then some TokenType.Star
    else if op = '!' then some TokenType.Bang
    else if op = '|' then some TokenType.Pipe
    else if op = '&' then some TokenType.Ampersand
    else if op = '^' then some TokenType.Caret
    else if op = '%' then some TokenType.Percent
    else if op = '~' then some TokenType.Tilde
    else if op = '.' then some TokenType.Dot
    else if op = '(' then some TokenType.LeftParen
    else if op = ')' then some TokenType.RightParen
    else if op = '[' then some TokenType.LeftBracket
    else if op = ']' then some TokenType.RightBracket
    else if op = lbrace then some TokenType.LeftBrace
    else if op = rbrace then some TokenType.RightBrace
    else none
  match op_type with
  | none => none
  | some t => some ⟨t, s.src_name, s.src_ln, s.src_col, String.singleton op⟩

/-- The seventeen characters that the iterator `next` dispatches straight
to `operator` (every table entry except `.`, whose arm is guarded). -/
def is_dispatch_operator (c : Char) : Bool :=
  decide (c = ';' ∨ c = '+' ∨ c = '-' ∨ c = '*' ∨ c = '/' ∨ c = '!' ∨ c = '|' ∨
    c = '&' ∨ c = '^' ∨ c = '%' ∨ c = '~' ∨ c = '(' ∨ c = ')' ∨ c = '[' ∨
    c = ']' ∨ c = lbrace ∨ c = rbrace)

/-- Rust `self.peek().unwrap_or(&'\0')`. -/
def head_or_nul (l : List Char) : Char := l.head?.getD nulChar

/-- Rust `Scanner::consume_whitespace`. -/
def consume_whitespace : Scanner → Scanner
  | ⟨name, ln, col, []⟩ => ⟨name, ln, col, []⟩
  | ⟨name, ln, col, c :: rest⟩ =>
    if is_whitespace c then
      consume_whitespace (popSome c rest ⟨name, ln, col, c :: rest⟩)
    else ⟨name, ln, col, c :: rest⟩
termination_by s => s.src.length
decreasing_by
  simp [popSome_src]

/-- Inner loop of the single-line-comment arm of
`Scanner::consume_comments`: pop until a newline is popped or until the
pop at end of input (which still bumps the column) ends the loop. -/
def skip_line_comment : Scanner → Scanner
  | ⟨name, ln, col, []⟩ => ⟨name, ln, col + 1, []⟩
  | ⟨name, ln, col, c :: rest⟩ =>
    if c = '\n' then popSome c rest ⟨name, ln, col, c :: rest⟩
    else skip_line_comment (popSome c rest ⟨name, ln, col, c :: rest⟩)
termination_by s => s.src.length
decreasing_by
  simp [popSome_src]

/-- Inner loop of the block-comment arm of `Scanner::consume_comments`:
pop; on a `*` whose successor is `/`, pop the `/` as well and stop with
`hit_end = true`; the pop at end of input ends the loop with
`hit_end = false`. -/
def skip_block_comment : Scanner → Bool × Scanner
  | ⟨name, ln, col, []⟩ => (false, ⟨name, ln, col + 1, []⟩)
  | ⟨name, ln, col, c :: rest⟩ =>
    if c = '*' ∧ head_or_nul rest = '/' then
      (true, (pop (popSome c rest ⟨name, ln, col, c :: rest⟩)).2)
    else
      skip_block_comment (popSome c rest ⟨name, ln, col, c :: rest⟩)
termination_by s => s.src.length
decreasing_by
  simp [popSome_src]

/-- Helper fact used for termination: popping never grows the remaining
input. -/
def pop_src_length (s : Scanner) : (pop s).2.src.length ≤ s.src.length := by
  cases h : s.src with
  | nil => simp [pop, h]
  | cons c rest => simp [pop, h, popSome_src]

/-- Helper fact used for termination: `consume_whitespace` never grows
the remaining input. -/
def consume_whitespace_length (s : Scanner) :
    (consume_whitespace s).src.length ≤ s.src.length := by
  induction s using consume_whitespace.induct with
  | case1 name ln col => simp [consume_whitespace]
  | case2 name ln col c rest hw ih =>
    rw [consume_whitespace]
    simp only [hw, if_true]
    refine le_trans ih ?_
    simp [popSome_src]
  | case3 name ln col c rest hw =>
    rw [consume_whitespace]
    simp [hw]

/-- Helper fact used for termination: `skip_line_comment` never grows the
remaining input. -/
def skip_line_comment_length (s : Scanner) :
    (skip_line_comment s).src.length ≤ s.src.length := by
  induction s using skip_line_comment.induct with
  | case1 name ln col => simp [skip_line_comment]
  | case2 name ln col rest =>
    rw [skip_line_comment]
    simp [popSome_src]
  | case3 name ln col c rest hnl ih =>
    rw [skip_line_comment]
    simp only [hnl, if_false]
    refine le_trans ih ?_
    simp [popSome_src]

/-- Helper fact used for termination: `skip_block_comment` never grows
the remaining input. -/
def skip_block_comment_length (s : Scanner) :
    (skip_block_comment s).2.src.length ≤ s.src.length := by
  induction s using skip_block_comment.induct with
  | case1 name ln col => simp [skip_block_comment]
  | case2 name ln col c rest hcond =>
    rw [skip_block_comment]
    simp only [hcond, if_true]
    refine le_trans (pop_src_length _) ?_
    simp [popSome_src]
  | case3 name ln col c rest hcond ih =>
    rw [skip_block_comment]
    simp only [hcond, if_false]
    refine le_trans ih ?_
    simp [popSome_src]

/-- Message of the unterminated-block-comment error in the source. -/
def unterminated_comment_msg : String :=
  "expected " ++ String.singleton squote ++ "*/" ++ String.singleton squote ++
    " but found eof"

/-- Rust `Scanner::consume_comments`: while the next character is `/`,
consume it and inspect the following character; a second `/` skips a line
comment, a `*` skips a block comment (failing when it is unterminated),
any other character yields the `Slash` token at the current cursor, and
end of input right after the `/` yields `None`. -/
def consume_comments : Scanner → Option (Except Error Token) × Scanner
  | ⟨name, ln, col, '/' :: '/' :: rest2⟩ =>
    consume_comments (consume_whitespace (skip_line_comment
      (popSome '/' ('/' :: rest2) ⟨name, ln, col, '/' :: '/' :: rest2⟩)))
  | ⟨name, ln, col, '/' :: '*' :: rest2⟩ =>
    let r := skip_block_comment
      (popSome '/' ('*' :: rest2) ⟨name, ln, col, '/' :: '*' :: rest2⟩)
    if r.1 then
      consume_comments (consume_whitespace r.2)
    else
      (some (Except.error
        ⟨unterminated_comment_msg, r.2.src_name, r.2.src_ln, r.2.src_col⟩), r.2)
  | ⟨name, ln, col, '/' :: c :: rest2⟩ =>
    let s1 := popSome '/' (c :: rest2) ⟨name, ln, col, '/' :: c :: rest2⟩
    (some (Except.ok ⟨TokenType.Slash, s1.src_name, s1.src_ln, s1.src_col, "/"⟩), s1)
  | ⟨name, ln, col, ['/']⟩ =>
    (none, popSome '/' [] ⟨name, ln, col, ['/']⟩)
  | s => (none, s)
termination_by s => s.src.length
decreasing_by
  · refine lt_of_le_of_lt (consume_whitespace_length _) ?_
    refine lt_of_le_of_lt (skip_line_comment_length _) ?_
    simp [popSome_src]
  · refine lt_of_le_of_lt (consume_whitespace_length _) ?_
    refine lt_of_le_of_lt (skip_block_comment_length _) ?_
    simp [popSome_src]

/-- Loop of Rust `Scanner::consume_number`: greedily take ASCII digits,
and at most one dot. -/
def consume_number_loop (dot : Bool) (buffer : String) : Scanner → String × Scanner
  | ⟨name, ln, col, []⟩ => (buffer, ⟨name, ln, col, []⟩)
  | ⟨name, ln, col, c :: rest⟩ =>
    if c.isDigit then
      consume_number_loop dot (buffer.push c) (popSome c rest ⟨name, ln, col, c :: rest⟩)
    else if c = '.' ∧ dot = false then
      consume_number_loop true (buffer.push c) (popSome c rest ⟨name, ln, col, c :: rest⟩)
    else
      (buffer, ⟨name, ln, col, c :: rest⟩)
termination_by s => s.src.length
decreasing_by
  all_goals simp [popSome_src]

/-- Rust `Scanner::consume_number`: the start column is captured before
the greedy loop; the line is read when the token is built. -/
def consume_number (starting : Char) (s : Scanner) : Token × Scanner :=
  let start_column := s.src_col
  let r := consume_number_loop (decide (starting = '.')) (String.singleton starting) s
  (⟨TokenType.NumberLiteral, r.2.src_name, r.2.src_ln, start_column, r.1⟩, r.2)

/-- Loop of Rust `Scanner::consume_string`: pop characters until the
opening delimiter recurs; decode backslash escapes; fail on an unknown
escape, on a trailing backslash, and on end of input before the closing
delimiter.  Positions of failures are the cursor at detection time. -/
def consume_string_loop (starting : Char) (buffer : String) (start_column : Nat) :
    Scanner → Except Error Token × Scanner
  | ⟨name, ln, col, []⟩ =>
    (Except.error ⟨if starting = '"' then "expected \" token"
        else "expected " ++ String.singleton squote ++ " token",
      name, ln, col + 1⟩, ⟨name, ln, col + 1, []⟩)
  | ⟨name, ln, col, c :: rest⟩ =>
    let s1 := popSome c rest ⟨name, ln, col, c :: rest⟩
    if c = starting then
      (Except.ok ⟨if c = squote then TokenType.StringLiteral
          else TokenType.FormattedStringLiteral,
        s1.src_name, s1.src_ln, start_column, buffer⟩, s1)
    else if c = '\\' then
      match rest with
      | [] =>
        (Except.error ⟨"expected escape character, found EOF",
          s1.src_name, s1.src_ln, s1.src_col + 1⟩,
         { s1 with src_col := s1.src_col + 1 })
      | e :: rest2 =>
        let s2 := popSome e rest2 s1
        if e = squote then consume_string_loop starting (buffer.push squote) start_column s2
        else if e = '"' then consume_string_loop starting (buffer.push '"') start_column s2
        else if e = 't' then consume_string_loop starting (buffer.push '\t') start_column s2
        else if e = 'r' then consume_string_loop starting (buffer.push '\r') start_column s2
        else if e = 'n' then consume_string_loop starting (buffer.push '\n') start_column s2
        else if e = '\\' then consume_string_loop starting (buffer.push '\\') start_column s2
        else
          (Except.error ⟨"unknown escape character " ++ String.singleton e ++ " found",
            s2.src_name, s2.src_ln, s2.src_col⟩, s2)
    else
      consume_string_loop starting (buffer.push c) start_column s1
termination_by s => s.src.length
decreasing_by
  all_goals simp [popSome_src]
  all_goals omega

/-- Rust `Scanner::consume_string`: the start column is the scanner
column at entry, that is, right after the opening delimiter was popped. -/
def consume_string (starting : Char) (s : Scanner) : Except Error Token × Scanner :=
  consume_string_loop starting "" s.src_col s

/-- Loop of Rust `Scanner::consume_identifier`: keep taking characters
that satisfy `is_identifier_character _ false`. -/
def consume_identifier_loop (buffer : String) : Scanner → String × Scanner
  | ⟨name, ln, col, []⟩ => (buffer, ⟨name, ln, col, []⟩)
  | ⟨name, ln, col, c :: rest⟩ =>
    if is_identifier_character c false then
      consume_identifier_loop (buffer.push c) (popSome c rest ⟨name, ln, col, c :: rest⟩)
    else (buffer, ⟨name, ln, col, c :: rest⟩)
termination_by s => s.src.length
decreasing_by
  simp [popSome_src]

/-- Rust `Scanner::consume_identifier`: collect the run, then look it up
in the keyword table; a hit yields the keyword kind, otherwise the token
is an `Identifier`. -/
def consume_identifier (starting : Char) (s : Scanner) : Token × Scanner :=
  let start_column := s.src_col
  let r := consume_identifier_loop (String.singleton starting) s
  match str_to_keyword r.1 with
  | some tok_type => (⟨tok_type, r.2.src_name, r.2.src_ln, start_column, r.1⟩, r.2)
  | none => (⟨TokenType.Identifier, r.2.src_name, r.2.src_ln, start_column, r.1⟩, r.2)

/-- Dispatch on the character popped by the iterator `next` of the Rust
scanner, in the order of its match arms: the seventeen operator arms
(whose `unwrap` of `operator` is modelled by the `panicked` marker), the
guarded `Dot` arm, the two string arms, the guarded number arm, the
guarded identifier arm, and the unexpected-character arm. -/
def dispatch (c : Char) (s2 : Scanner) : PullResult × Scanner :=
  if is_dispatch_operator c then
    match operator s2 c with
    | some t => (PullResult.tok t, s2)
    | none => (PullResult.panicked, s2)
  else if c = '.' ∧ (head_or_nul s2.src).isDigit = false then
    match operator s2 '.' with
    | some t => (PullResult.tok t, s2)
    | none => (PullResult.panicked, s2)
  else if c = squote ∨ c = '"' then
    match consume_string c s2 with
    | (Except.ok t, s3) => (PullResult.tok t, s3)
    | (Except.error e, s3) => (PullResult.err e, s3)
  else if c.isDigit ∨ (c = '.' ∧ (head_or_nul s2.src).isDigit = true) then
    let r := consume_number c s2
    (PullResult.tok r.1, r.2)
  else if is_identifier_character c true then
    let r := consume_identifier c s2
    (PullResult.tok r.1, r.2)
  else
    (PullResult.err ⟨"unexpected " ++ String.singleton c ++ " token",
      s2.src_name, s2.src_ln, s2.src_col⟩, s2)

/-- Rust `<Scanner as Iterator>::next`, one pull: skip whitespace, handle
comments (which may already produce a token or an error), then pop one
character and dispatch on it; popping nothing is end of input. -/
def Scanner.next (s : Scanner) : PullResult × Scanner :=
  let s0 := consume_whitespace s
  match consume_comments s0 with
  | (some (Except.ok t), s1) => (PullResult.tok t, s1)
  | (some (Except.error e), s1) => (PullResult.err e, s1)
  | (none, s1) =>
    match pop s1 with
    | (none, s2) => (PullResult.eof, s2)
    | (some c, s2) => dispatch c s2

/-- Input-side condition of the unterminated-block-comment claim: the
character list contains a `*` immediately followed by `/`. -/
def contains_star_slash : List Char → Bool
  | '*' :: '/' :: _ => true
  | _ :: l => contains_star_slash l
  | [] => false

/-- Unfolding lemma: whitespace skipping does nothing when the head
character is not whitespace. -/
theorem consume_whitespace_head (name : String) (ln col : Nat) (c : Char) (rest : List Char)
    (h : is_whitespace c = false) :
    consume_whitespace ⟨name, ln, col, c :: rest⟩ = ⟨name, ln, col, c :: rest⟩ := by
  rw [consume_whitespace]
  simp [h]

/-- Unfolding lemma: the comment pass does nothing on empty input. -/
theorem consume_comments_nil (name : String) (ln col : Nat) :
    consume_comments ⟨name, ln, col, []⟩ = (none, ⟨name, ln, col, []⟩) := by
  rw [consume_comments.eq_def]

/-- Unfolding lemma: the comment pass does nothing when the head
character is not a slash. -/
theorem consume_comments_other (name : String) (ln col : Nat) (c : Char) (rest : List Char)
    (h1 : c ≠ '/') :
    consume_comments ⟨name, ln, col, c :: rest⟩ = (none, ⟨name, ln, col, c :: rest⟩) := by
  rw [consume_comments.eq_def]
  split <;> simp_all

/-- Unfolding lemma: a consumed slash followed by a character that opens
no comment produces the `Slash` token at the cursor. -/
theorem consume_comments_slash_other (name : String) (ln col : Nat) (c : Char) (rest : List Char)
    (h1 : c ≠ '/') (h2 : c ≠ '*') :
    consume_comments ⟨name, ln, col, '/' :: c :: rest⟩ =
      (some (Except.ok ⟨TokenType.Slash, name, ln, col + 1, "/"⟩),
       ⟨name, ln, col + 1, c :: rest⟩) := by
  rw [consume_comments.eq_def]
  split
  · simp_all
  · simp_all
  · simp_all [popSome]
  · simp_all
  · rename_i hm3 hm4
    exact (hm3 name ln col c rest rfl).elim

/-- Unfolding lemma: a consumed slash with nothing after it ends the
comment pass with no token; the failed pop has bumped the column. -/
theorem consume_comments_lone_slash (name : String) (ln col : Nat) :
    consume_comments ⟨name, ln, col, ['/']⟩ = (none, ⟨name, ln, col + 1, []⟩) := by
  rw [consume_comments.eq_def]
  simp [popSome]

/-- A cons list without the star-slash pair has a tail without it. -/
theorem contains_star_slash_tail {c : Char} {l : List Char}
    (h : contains_star_slash (c :: l) = false) : contains_star_slash l = false := by
  cases l with
  | nil => rfl
  | cons d l2 =>
    rw [contains_star_slash.eq_def] at h
    split at h <;> simp_all

/-- When the remaining input holds no `*` immediately followed by `/`,
the block-comment loop consumes everything and reports no terminator. -/
theorem skip_block_comment_no_term (s : Scanner)
    (h : contains_star_slash s.src = false) :
    (skip_block_comment s).1 = false ∧ (skip_block_comment s).2.src = [] := by
  induction s using skip_block_comment.induct with
  | case1 name ln col => rw [skip_block_comment]; simp
  | case2 name ln col c rest hcond =>
    exfalso
    obtain ⟨hc, hr⟩ := hcond
    subst hc
    cases rest with
    | nil => simp [head_or_nul, nulChar] at hr
    | cons d l2 =>
      simp only [head_or_nul, List.head?, Option.getD] at hr
      subst hr
      simp [contains_star_slash] at h
  | case3 name ln col c rest hcond ih =>
    rw [skip_block_comment]
    simp only [hcond, if_false]
    exact ih (by rw [popSome_src]; exact contains_star_slash_tail h)

/-- Claim C5: every character consumption, in every sub-scan, increments
the column counter; consuming a newline then increments the line and
resets the column to 0, so the character popped immediately after a
newline is consumed at column 1. -/
theorem c5_position_accounting :
    (∀ (c : Char) (rest : List Char) (s : Scanner), c ≠ '\n' →
      popSome c rest s = { s with src := rest, src_col := s.src_col + 1 }) ∧
    (∀ (rest : List Char) (s : Scanner),
      popSome '\n' rest s = { s with src := rest, src_ln := s.src_ln + 1, src_col := 0 }) ∧
    (∀ (c : Char) (rest rest2 : List Char) (s : Scanner), c ≠ '\n' →
      (popSome c rest2 (popSome '\n' rest s)).src_col = 1) := by
  refine ⟨?_, ?_, ?_⟩ <;> intros <;> simp_all [popSome]

/-- Witness for the position-accounting claim at concrete inputs. -/
theorem c5_position_accounting_witness :
    popSome 'a' [] ⟨"t", 1, 5, ['a']⟩ = ⟨"t", 1, 6, []⟩ ∧
    popSome '\n' ['b'] ⟨"t", 1, 5, ['\n', 'b']⟩ = ⟨"t", 2, 0, ['b']⟩ ∧
    (popSome 'b' [] (popSome '\n' ['b'] ⟨"t", 1, 5, ['\n', 'b']⟩)).src_col = 1 :=
  ⟨c5_position_accounting.1 'a' [] ⟨"t", 1, 5, ['a']⟩ (by decide),
   c5_position_accounting.2.1 ['b'] ⟨"t", 1, 5, ['\n', 'b']⟩,
   c5_position_accounting.2.2 'b' ['b'] [] ⟨"t", 1, 5, ['\n', 'b']⟩ (by decide)⟩

/-- Claim C10: a pop at end of input still increments the column; a pull
at end of input yields end-of-input and increments the column by one;
and each error detected at end of input (unterminated block comment,
unterminated string, trailing backslash) carries a column one past the
state reached after the last real character. -/
theorem c10_eof_column :
    (∀ s : Scanner, s.src = [] → pop s = (none, { s with src_col := s.src_col + 1 })) ∧
    (∀ s : Scanner, s.src = [] →
      (Scanner.next s).1 = PullResult.eof ∧
      (Scanner.next s).2.current_column = s.current_column + 1) ∧
    (∀ (name : String) (ln col : Nat),
      skip_block_comment ⟨name, ln, col, []⟩ = (false, ⟨name, ln, col + 1, []⟩)) ∧
    (∀ (starting : Char) (buffer : String) (start_column : Nat)
       (name : String) (ln col : Nat),
      consume_string_loop starting buffer start_column ⟨name, ln, col, []⟩ =
        (Except.error ⟨if starting = '"' then "expected \" token"
            else "expected " ++ String.singleton squote ++ " token", name, ln, col + 1⟩,
         ⟨name, ln, col + 1, []⟩)) ∧
    (∀ (starting : Char) (buffer : String) (start_column : Nat)
       (name : String) (ln col : Nat), starting ≠ '\\' →
      consume_string_loop starting buffer start_column ⟨name, ln, col, ['\\']⟩ =
        (Except.error ⟨"expected escape character, found EOF", name, ln, col + 2⟩,
         ⟨name, ln, col + 2, []⟩)) := by
  refine ⟨?_, ?_, ?_, ?_, ?_⟩
  · intro s h
    obtain ⟨name, ln, col, src⟩ := s
    cases h
    rfl
  · intro s h
    obtain ⟨name, ln, col, src⟩ := s
    cases h
    rw [Scanner.next]
    rw [show consume_whitespace ⟨name, ln, col, []⟩ = ⟨name, ln, col, []⟩ from by
      rw [consume_whitespace]]
    rw [consume_comments_nil]
    exact ⟨rfl, rfl⟩
  · intro name ln col
    rw [skip_block_comment]
  · intro starting buffer start_column name ln col
    rw [consume_string_loop]
  · intro starting buffer start_column name ln col h
    rw [consume_string_loop]
    simp [h.symm, popSome]

/-- Witness for the end-of-input column claim at concrete inputs. -/
theorem c10_eof_column_witness :
    pop ⟨"t", 3, 7, []⟩ = (none, ⟨"t", 3, 8, []⟩) ∧
    ((Scanner.next ⟨"t", 3, 7, []⟩).1 = PullResult.eof ∧
      (Scanner.next ⟨"t", 3, 7, []⟩).2.current_column = Scanner.current_column ⟨"t", 3, 7, []⟩ + 1) ∧
    skip_block_comment ⟨"t", 3, 7, []⟩ = (false, ⟨"t", 3, 8, []⟩) ∧
    consume_string_loop squote "ab" 2 ⟨"t", 3, 7, []⟩ =
      (Except.error ⟨"expected " ++ String.singleton squote ++ " token", "t", 3, 8⟩,
       ⟨"t", 3, 8, []⟩) ∧
    consume_string_loop squote "ab" 2 ⟨"t", 3, 7, ['\\']⟩ =
      (Except.error ⟨"expected escape character, found EOF", "t", 3, 9⟩, ⟨"t", 3, 9, []⟩) := by
  refine ⟨c10_eof_column.1 ⟨"t", 3, 7, []⟩ rfl,
    c10_eof_column.2.1 ⟨"t", 3, 7, []⟩ rfl,
    c10_eof_column.2.2.1 "t" 3 7, ?_,
    c10_eof_column.2.2.2.2 squote "ab" 2 "t" 3 7 (by decide)⟩
  have h4 := c10_eof_column.2.2.2.1 squote "ab" 2 "t" 3 7
  rw [if_neg (by decide)] at h4
  exact h4

/-- Claim C3: a consumed slash followed by a character that is neither a
slash nor a star yields the `Slash` token (lexeme "/") at the current
cursor; a lone slash at the end of input yields end-of-input with no
token. -/
theorem c3_slash_token :
    (∀ (name : String) (ln col : Nat) (c : Char) (rest : List Char),
      c ≠ '/' → c ≠ '*' →
      Scanner.next ⟨name, ln, col, '/' :: c :: rest⟩ =
        (PullResult.tok ⟨TokenType.Slash, name, ln, col + 1, "/"⟩,
         ⟨name, ln, col + 1, c :: rest⟩)) ∧
    (∀ (name : String) (ln col : Nat),
      Scanner.next ⟨name, ln, col, ['/']⟩ = (PullResult.eof, ⟨name, ln, col + 2, []⟩)) := by
  constructor
  · intro name ln col c rest h1 h2
    rw [Scanner.next]
    rw [consume_whitespace_head name ln col '/' (c :: rest) (by decide)]
    rw [consume_comments_slash_other name ln col c rest h1 h2]
  · intro name ln col
    rw [Scanner.next]
    rw [consume_whitespace_head name ln col '/' [] (by decide)]
    rw [consume_comments_lone_slash]
    rfl

/-- Witness for the slash-token claim at concrete inputs. -/
theorem c3_slash_token_witness :
    Scanner.next ⟨"t", 1, 0, ['/', 'x']⟩ =
      (PullResult.tok ⟨TokenType.Slash, "t", 1, 1, "/"⟩, ⟨"t", 1, 1, ['x']⟩) ∧
    Scanner.next ⟨"t", 1, 0, ['/']⟩ = (PullResult.eof, ⟨"t", 1, 2, []⟩) :=
  ⟨c3_slash_token.1 "t" 1 0 'x' [] (by decide) (by decide),
   c3_slash_token.2 "t" 1 0⟩

/-- Claim C2: a block comment whose remaining input holds no `*`
immediately followed by `/` makes the pull fail with the
unterminated-comment error, positioned at the cursor reached when the
input was exhausted (never a silent close); on the two-character input
"/*" the single pull is that error at line 1, column 3. -/
theorem c2_unterminated_block_comment :
    (∀ (name : String) (ln col : Nat) (rest2 : List Char),
      contains_star_slash ('*' :: rest2) = false →
      ∃ e s2, Scanner.next ⟨name, ln, col, '/' :: '*' :: rest2⟩ = (PullResult.err e, s2) ∧
        s2.src = [] ∧ e.msg = unterminated_comment_msg ∧
        e.src_line = s2.src_ln ∧ e.src_column = s2.src_col) ∧
    Scanner.next ⟨"test", 1, 0, ['/', '*']⟩ =
      (PullResult.err ⟨unterminated_comment_msg, "test", 1, 3⟩, ⟨"test", 1, 3, []⟩) := by
  constructor
  · intro name ln col rest2 h
    have hpop : popSome '/' ('*' :: rest2) ⟨name, ln, col, '/' :: '*' :: rest2⟩ =
        ⟨name, ln, col + 1, '*' :: rest2⟩ := by simp [popSome]
    have hterm := skip_block_comment_no_term ⟨name, ln, col + 1, '*' :: rest2⟩ h
    refine ⟨⟨unterminated_comment_msg,
      (skip_block_comment ⟨name, ln, col + 1, '*' :: rest2⟩).2.src_name,
      (skip_block_comment ⟨name, ln, col + 1, '*' :: rest2⟩).2.src_ln,
      (skip_block_comment ⟨name, ln, col + 1, '*' :: rest2⟩).2.src_col⟩,
      (skip_block_comment ⟨name, ln, col + 1, '*' :: rest2⟩).2,
      ?_, hterm.2, rfl, rfl, rfl⟩
    rw [Scanner.next]
    rw [consume_whitespace_head name ln col '/' ('*' :: rest2) (by decide)]
    rw [consume_comments.eq_def]
    simp only [hpop]
    simp only [hterm.1, Bool.false_eq_true, if_false]
  · simp [Scanner.next, consume_whitespace, consume_comments, skip_block_comment,
      popSome, pop, head_or_nul, is_whitespace, nulChar, squote]

/-- Witness for the unterminated-block-comment claim at a concrete
input with content before the exhaustion point. -/
theorem c2_unterminated_block_comment_witness :
    ∃ e s2, Scanner.next ⟨"t", 1, 0, ['/', '*', 'x']⟩ = (PullResult.err e, s2) ∧
      s2.src = [] ∧ e.msg = unterminated_comment_msg ∧
      e.src_line = s2.src_ln ∧ e.src_column = s2.src_col :=
  c2_unterminated_block_comment.1 "t" 1 0 ['x'] (by decide)

/-- The `is_first` flag of `is_identifier_character` is inert: the
start-of-identifier disjunct is absorbed by the `is_alphanumeric`
disjunct, so the predicate collapses to alphanumeric-or-underscore. -/
theorem is_identifier_character_flag (ch : Char) (b : Bool) :
    is_identifier_character ch b = (is_alphanumeric ch || decide (ch = '_')) := by
  cases b <;>
    cases h1 : is_alphabetic ch <;>
    cases h2 : is_numeric ch <;>
    cases h3 : decide (ch = '_') <;>
    simp_all [is_identifier_character, is_alphanumeric]

/-- Every character of the seventeen-way operator dispatch has an entry
in the operator table, so its `unwrap` cannot panic. -/
theorem operator_isSome (s : Scanner) (c : Char) (h : is_dispatch_operator c = true) :
    (operator s c).isSome = true := by
  simp only [is_dispatch_operator, decide_eq_true_eq] at h
  rcases h with h|h|h|h|h|h|h|h|h|h|h|h|h|h|h|h|h <;> subst h <;> simp [operator, lbrace, rbrace]

/-- No branch of the character dispatch reaches a panicking unwrap. -/
theorem dispatch_no_panic (c : Char) (s2 : Scanner) :
    (dispatch c s2).1 ≠ PullResult.panicked := by
  unfold dispatch
  split_ifs with h1 h2 h3 h4 h5
  · have hop := operator_isSome s2 c h1
    cases h : operator s2 c with
    | none => rw [h] at hop; simp at hop
    | some t => simp [h]
  · cases h : operator s2 '.' with
    | none => simp [operator] at h
    | some t => simp [h]
  · rcases h : consume_string c s2 with ⟨r, s3⟩
    cases r <;> simp [h]
  · simp
  · simp
  · simp

/-- Claim C9: every pull returns a value (token, error, or end of input)
and never reaches a panicking branch; in particular the dispatch unwraps
are all safe, and the identifier loop's pop-unwrap is protected because
the NUL default fed to the peek is not an identifier character. -/
theorem c9_no_panic :
    (∀ s : Scanner, (Scanner.next s).1 ≠ PullResult.panicked) ∧
    is_identifier_character nulChar false = false := by
  constructor
  · intro s
    rw [Scanner.next]
    rcases hcc : consume_comments (consume_whitespace s) with ⟨r, s1⟩
    rcases r with _ | r
    · simp only
      rcases hp : pop s1 with ⟨oc, s2⟩
      rcases oc with _ | c
      · simp
      · exact dispatch_no_panic c s2
    · rcases r with e | t <;> simp
  · decide

/-- Witness for the no-panic claim at a concrete input. -/
theorem c9_no_panic_witness :
    (Scanner.next ⟨"t", 1, 0, ['+']⟩).1 ≠ PullResult.panicked ∧
    is_identifier_character nulChar false = false :=
  ⟨c9_no_panic.1 ⟨"t", 1, 0, ['+']⟩, c9_no_panic.2⟩

/-- Claim C4 evaluation: the Arabic-Indic digit five (U+0665) is not
alphabetic, not an underscore, not an ASCII digit, and none of the
operator, dot, or quote characters, yet the pull scans it as an
`Identifier` token instead of failing with the unexpected-character
error, because `is_identifier_character` admits every alphanumeric
character at the first position (its `is_first` flag is inert). -/
theorem c4_identifier_start_divergence :
    (Scanner.next ⟨"test", 1, 0, [Char.ofNat 0x665]⟩).1 =
      PullResult.tok ⟨TokenType.Identifier, "test", 1, 1, String.singleton (Char.ofNat 0x665)⟩ ∧
    is_alphabetic (Char.ofNat 0x665) = false ∧
    decide (Char.ofNat 0x665 = '_') = false ∧
    (Char.ofNat 0x665).isDigit = false ∧
    is_dispatch_operator (Char.ofNat 0x665) = false ∧
    decide (Char.ofNat 0x665 = '.') = false ∧
    decide (Char.ofNat 0x665 = squote) = false ∧
    decide (Char.ofNat 0x665 = '"') = false ∧
    is_numeric (Char.ofNat 0x665) = true ∧
    (∀ (ch : Char) (b1 b2 : Bool),
      is_identifier_character ch b1 = is_identifier_character ch b2) := by
  refine ⟨?_, by decide, by decide, by decide, by decide, by decide, by decide, by decide,
    by decide, ?_⟩
  · simp [Scanner.next, consume_whitespace, consume_comments, dispatch, is_dispatch_operator,
      operator, popSome, pop, head_or_nul, is_whitespace, nulChar, squote, lbrace, rbrace,
      consume_identifier, consume_identifier_loop, is_identifier_character, is_alphanumeric,
      is_alphabetic, is_numeric, str_to_keyword]
    decide
  · intro ch b1 b2
    rw [is_identifier_character_flag, is_identifier_character_flag]

/-- Popping a character other than a newline only bumps the column. -/
theorem popSome_of_ne (c : Char) (rest : List Char) (s : Scanner) (h : c ≠ '\n') :
    popSome c rest s = { s with src := rest, src_col := s.src_col + 1 } := by
  simp [popSome, h]

/-- The number loop never consumes a newline, so it preserves the line
counter (and the source name). -/
theorem consume_number_loop_ln (dot : Bool) (buffer : String) (s : Scanner) :
    (consume_number_loop dot buffer s).2.src_ln = s.src_ln ∧
    (consume_number_loop dot buffer s).2.src_name = s.src_name := by
  induction dot, buffer, s using consume_number_loop.induct with
  | case1 dot buffer name ln col => rw [consume_number_loop]; exact ⟨rfl, rfl⟩
  | case2 dot buffer name ln col c rest hdig ih =>
    have hne : c ≠ '\n' := by intro hc; subst hc; simp at hdig
    rw [consume_number_loop, if_pos hdig]
    simpa [popSome, hne] using ih
  | case3 dot buffer name ln col c rest hdig hdot ih =>
    have hne : c ≠ '\n' := by intro hc; rw [hc] at hdot; exact absurd hdot.1 (by decide)
    rw [consume_number_loop, if_neg hdig, if_pos hdot]
    simpa [popSome, hne] using ih
  | case4 dot buffer name ln col c rest hdig hdot =>
    rw [consume_number_loop, if_neg hdig, if_neg hdot]
    exact ⟨rfl, rfl⟩

/-- Claim C7: a consumed `.` yields a `Dot` token exactly when the next
character is not an ASCII digit, and otherwise starts a number; the
number loop stops (consuming nothing) at any character that is neither a
digit nor a first dot; and the number token records the line and column
of its first character. -/
theorem c7_dot_and_number :
    (∀ (name : String) (ln col : Nat) (rest : List Char),
      (head_or_nul rest).isDigit = false →
      Scanner.next ⟨name, ln, col, '.' :: rest⟩ =
        (PullResult.tok ⟨TokenType.Dot, name, ln, col + 1, "."⟩,
         ⟨name, ln, col + 1, rest⟩)) ∧
    (∀ (name : String) (ln col : Nat) (rest : List Char),
      (head_or_nul rest).isDigit = true →
      (Scanner.next ⟨name, ln, col, '.' :: rest⟩).1 =
        PullResult.tok (consume_number '.' ⟨name, ln, col + 1, rest⟩).1 ∧
      (consume_number '.' ⟨name, ln, col + 1, rest⟩).1.tok = TokenType.NumberLiteral) ∧
    (∀ (dot : Bool) (buffer : String) (name : String) (ln col : Nat)
       (c : Char) (rest : List Char),
      c.isDigit = false → (c = '.' → dot = true) →
      consume_number_loop dot buffer ⟨name, ln, col, c :: rest⟩ =
        (buffer, ⟨name, ln, col, c :: rest⟩)) ∧
    (∀ (starting : Char) (s : Scanner),
      (consume_number starting s).1.src_col = s.src_col ∧
      (consume_number starting s).1.src_ln = s.src_ln) := by
  refine ⟨?_, ?_, ?_, ?_⟩
  · intro name ln col rest h
    rw [Scanner.next]
    rw [consume_whitespace_head name ln col '.' rest (by decide)]
    rw [consume_comments_other name ln col '.' rest (by decide)]
    simp only [pop]
    rw [popSome_of_ne '.' rest _ (by decide)]
    rw [dispatch]
    simp [is_dispatch_operator, h, operator, lbrace, rbrace]
    decide
  · intro name ln col rest h
    constructor
    · rw [Scanner.next]
      rw [consume_whitespace_head name ln col '.' rest (by decide)]
      rw [consume_comments_other name ln col '.' rest (by decide)]
      simp only [pop]
      rw [popSome_of_ne '.' rest _ (by decide)]
      rw [dispatch]
      simp [is_dispatch_operator, lbrace, rbrace, squote, h]
    · simp [consume_number]
  · intro dot buffer name ln col c rest h1 h2
    rw [consume_number_loop]
    simp only [h1, Bool.false_eq_true, if_false]
    by_cases hc : c = '.'
    · simp [hc, h2 hc]
    · simp [hc]
  · intro starting s
    have h := consume_number_loop_ln (decide (starting = '.')) (String.singleton starting) s
    exact ⟨rfl, h.1⟩

/-- Witness for the dot-and-number claim at concrete inputs. -/
theorem c7_dot_and_number_witness :
    Scanner.next ⟨"t", 1, 0, ['.', 'a']⟩ =
      (PullResult.tok ⟨TokenType.Dot, "t", 1, 1, "."⟩, ⟨"t", 1, 1, ['a']⟩) ∧
    (Scanner.next ⟨"t", 1, 0, ['.', '5']⟩).1 =
      PullResult.tok (consume_number '.' ⟨"t", 1, 1, ['5']⟩).1 ∧
    consume_number_loop false "7" ⟨"t", 1, 1, ['x']⟩ = ("7", ⟨"t", 1, 1, ['x']⟩) ∧
    (consume_number '7' ⟨"t", 1, 1, ['x']⟩).1.src_col = 1 :=
  ⟨c7_dot_and_number.1 "t" 1 0 ['a'] (by decide),
   (c7_dot_and_number.2.1 "t" 1 0 ['5'] (by decide)).1,
   c7_dot_and_number.2.2.1 false "7" "t" 1 1 'x' [] (by decide) (by decide),
   (c7_dot_and_number.2.2.2 '7' ⟨"t", 1, 1, ['x']⟩).1⟩

/-- Claim C8: the keyword table maps exactly the nineteen keyword
spellings to their kinds; an identifier run that hits the table yields
the keyword kind with the run (the keyword spelling) as lexeme, and a
run that misses it yields an `Identifier` token with the run as lexeme. -/
theorem c8_keyword_lookup :
    (str_to_keyword "true" = some TokenType.TrueLiteral ∧
     str_to_keyword "false" = some TokenType.FalseLiteral ∧
     str_to_keyword "null" = some TokenType.NullLiteral ∧
     str_to_keyword "this" = some TokenType.ThisLiteral ∧
     str_to_keyword "super" = some TokenType.SuperLiteral ∧
     str_to_keyword "and" = some TokenType.And ∧
     str_to_keyword "or" = some TokenType.Or ∧
     str_to_keyword "not" = some TokenType.Not ∧
     str_to_keyword "function" = some TokenType.Function ∧
     str_to_keyword "class" = some TokenType.Class ∧
     str_to_keyword "extends" = some TokenType.Extends ∧
     str_to_keyword "if" = some TokenType.If ∧
     str_to_keyword "else" = some TokenType.Else ∧
     str_to_keyword "while" = some TokenType.While ∧
     str_to_keyword "do" = some TokenType.Do ∧
     str_to_keyword "for" = some TokenType.For ∧
     str_to_keyword "in" = some TokenType.In ∧
     str_to_keyword "break" = some TokenType.Break ∧
     str_to_keyword "continue" = some TokenType.Continue ∧
     str_to_keyword "return" = some TokenType.Return) ∧
    (∀ str : String, str_to_keyword str ≠ none →
      str ∈ (["true", "false", "null", "this", "super", "and", "or", "not", "function",
        "class", "extends", "if", "else", "while", "do", "for", "in", "break",
        "continue", "return"] : List String)) ∧
    (∀ (starting : Char) (s : Scanner) (k : TokenType),
      str_to_keyword (consume_identifier_loop (String.singleton starting) s).1 = some k →
      (consume_identifier starting s).1.tok = k ∧
      (consume_identifier starting s).1.src_data =
        (consume_identifier_loop (String.singleton starting) s).1) ∧
    (∀ (starting : Char) (s : Scanner),
      str_to_keyword (consume_identifier_loop (String.singleton starting) s).1 = none →
      (consume_identifier starting s).1.tok = TokenType.Identifier ∧
      (consume_identifier starting s).1.src_data =
        (consume_identifier_loop (String.singleton starting) s).1) := by
  refine ⟨by decide, ?_, ?_, ?_⟩
  · intro str h
    by_contra hmem
    simp only [List.mem_cons, List.not_mem_nil, or_false, not_or] at hmem
    obtain ⟨n1, n2, n3, n4, n5, n6, n7, n8, n9, n10,
      n11, n12, n13, n14, n15, n16, n17, n18, n19, n20⟩ := hmem
    exact h (by simp [str_to_keyword, n1, n2, n3, n4, n5, n6, n7, n8, n9, n10,
      n11, n12, n13, n14, n15, n16, n17, n18, n19, n20])
  · intro starting s k h
    simp [consume_identifier, h]
  · intro starting s h
    simp [consume_identifier, h]

/-- Witness for the keyword-lookup claim at concrete inputs. -/
theorem c8_keyword_lookup_witness :
    ("if" ∈ (["true", "false", "null", "this", "super", "and", "or", "not", "function",
      "class", "extends", "if", "else", "while", "do", "for", "in", "break",
      "continue", "return"] : List String)) ∧
    ((consume_identifier 'i' ⟨"t", 1, 1, ['f']⟩).1.tok = TokenType.If ∧
     (consume_identifier 'i' ⟨"t", 1, 1, ['f']⟩).1.src_data =
       (consume_identifier_loop (String.singleton 'i') ⟨"t", 1, 1, ['f']⟩).1) ∧
    ((consume_identifier 'h' ⟨"t", 1, 1, ['i']⟩).1.tok = TokenType.Identifier ∧
     (consume_identifier 'h' ⟨"t", 1, 1, ['i']⟩).1.src_data =
       (consume_identifier_loop (String.singleton 'h') ⟨"t", 1, 1, ['i']⟩).1) := by
  refine ⟨c8_keyword_lookup.2.1 "if" (by decide), ?_, ?_⟩
  · refine c8_keyword_lookup.2.2.1 'i' ⟨"t", 1, 1, ['f']⟩ TokenType.If ?_
    simp [consume_identifier_loop, is_identifier_character, is_alphanumeric, is_alphabetic,
      is_numeric, popSome, str_to_keyword]
    decide
  · refine c8_keyword_lookup.2.2.2 'h' ⟨"t", 1, 1, ['i']⟩ ?_
    simp [consume_identifier_loop, is_identifier_character, is_alphanumeric, is_alphabetic,
      is_numeric, popSome, str_to_keyword]
    decide

/-- Claim C6 counterexample: a backslash followed by a literal newline
is an unrecognized escape, and the error is reported at the cursor after
the newline was consumed, that is at line 2, column 0 — not at the
newline character's own position, line 1, column 3. -/
theorem c6_string_escapes_counterexample :
    (Scanner.next ⟨"t", 1, 0, [squote, '\\', '\n', squote]⟩).1 =
      PullResult.err ⟨"unknown escape character " ++ String.singleton '\n' ++ " found",
        "t", 2, 0⟩ ∧
    (2 : Nat) ≠ 1 ∧ (0 : Nat) ≠ 3 := by
  refine ⟨?_, by decide, by decide⟩
  simp [Scanner.next, consume_whitespace, consume_comments, dispatch, is_dispatch_operator,
    squote, consume_string, consume_string_loop, popSome, pop, head_or_nul, is_whitespace,
    nulChar, is_identifier_character, is_alphanumeric, is_alphabetic, is_numeric,
    lbrace, rbrace]

/-- Claim C6 as amended: in the string sub-scan each recognized escape
(backslash followed by quote, double quote, t, r, n, or backslash)
appends its decoded single character to the output lexeme and continues;
a backslash followed by any other character fails with the
unknown-escape error at the cursor reached by consuming that character —
which is the character's own position (same line, column two past the
backslash's predecessor) for every character except a newline, whose
consumption moves the cursor to the start of the next line; a backslash
that is the last character of input fails with the
expected-escape-character error; and end of input before the closing
delimiter fails with the unterminated-string error. -/
theorem c6_string_escapes :
    (∀ (starting : Char) (buffer : String) (start_column : Nat)
       (name : String) (ln col : Nat) (e d : Char) (rest : List Char),
      (starting = squote ∨ starting = '"') →
      ((e = squote ∧ d = squote) ∨ (e = '"' ∧ d = '"') ∨ (e = 't' ∧ d = '\t') ∨
       (e = 'r' ∧ d = '\r') ∨ (e = 'n' ∧ d = '\n') ∨ (e = '\\' ∧ d = '\\')) →
      consume_string_loop starting buffer start_column ⟨name, ln, col, '\\' :: e :: rest⟩ =
        consume_string_loop starting (buffer.push d) start_column ⟨name, ln, col + 2, rest⟩) ∧
    (∀ (starting : Char) (buffer : String) (start_column : Nat)
       (name : String) (ln col : Nat) (e : Char) (rest : List Char),
      (starting = squote ∨ starting = '"') →
      e ≠ squote → e ≠ '"' → e ≠ 't' → e ≠ 'r' → e ≠ 'n' → e ≠ '\\' →
      consume_string_loop starting buffer start_column ⟨name, ln, col, '\\' :: e :: rest⟩ =
        (Except.error ⟨"unknown escape character " ++ String.singleton e ++ " found",
           (popSome e rest ⟨name, ln, col + 1, e :: rest⟩).src_name,
           (popSome e rest ⟨name, ln, col + 1, e :: rest⟩).src_ln,
           (popSome e rest ⟨name, ln, col + 1, e :: rest⟩).src_col⟩,
         popSome e rest ⟨name, ln, col + 1, e :: rest⟩)) ∧
    (∀ (starting : Char) (buffer : String) (start_column : Nat)
       (name : String) (ln col : Nat) (e : Char) (rest : List Char),
      (starting = squote ∨ starting = '"') →
      e ≠ squote → e ≠ '"' → e ≠ 't' → e ≠ 'r' → e ≠ 'n' → e ≠ '\\' → e ≠ '\n' →
      consume_string_loop starting buffer start_column ⟨name, ln, col, '\\' :: e :: rest⟩ =
        (Except.error ⟨"unknown escape character " ++ String.singleton e ++ " found",
           name, ln, col + 2⟩, ⟨name, ln, col + 2, rest⟩)) ∧
    (∀ (starting : Char) (buffer : String) (start_column : Nat)
       (name : String) (ln col : Nat),
      (starting = squote ∨ starting = '"') →
      consume_string_loop starting buffer start_column ⟨name, ln, col, ['\\']⟩ =
        (Except.error ⟨"expected escape character, found EOF", name, ln, col + 2⟩,
         ⟨name, ln, col + 2, []⟩)) ∧
    (∀ (starting : Char) (buffer : String) (start_column : Nat)
       (name : String) (ln col : Nat),
      consume_string_loop starting buffer start_column ⟨name, ln, col, []⟩ =
        (Except.error ⟨if starting = '"' then "expected \" token"
            else "expected " ++ String.singleton squote ++ " token", name, ln, col + 1⟩,
         ⟨name, ln, col + 1, []⟩)) := by
  refine ⟨?_, ?_, ?_, ?_, ?_⟩
  · intro starting buffer start_column name ln col e d rest hst he
    rcases hst with hst | hst <;> subst hst <;>
      rcases he with ⟨he, hd⟩ | ⟨he, hd⟩ | ⟨he, hd⟩ | ⟨he, hd⟩ | ⟨he, hd⟩ | ⟨he, hd⟩ <;>
      subst he <;> subst hd <;>
      rw [consume_string_loop.eq_def] <;>
      simp [popSome, squote]
  · intro starting buffer start_column name ln col e rest hst h1 h2 h3 h4 h5 h6
    have hs : ('\\' : Char) ≠ starting := by
      rcases hst with hst | hst <;> subst hst <;> decide
    rw [consume_string_loop.eq_def]
    split
    · simp_all
    · rename_i heq
      simp only [Scanner.mk.injEq, List.cons.injEq] at heq
      obtain ⟨hn, hl, hc, hch, hr⟩ := heq
      subst hn; subst hl; subst hc; subst hch; subst hr
      simp only [squote] at h1
      simp [hs, h1, h2, h3, h4, h5, h6, popSome, squote]
  · intro starting buffer start_column name ln col e rest hst h1 h2 h3 h4 h5 h6 h7
    have hs : ('\\' : Char) ≠ starting := by
      rcases hst with hst | hst <;> subst hst <;> decide
    rw [consume_string_loop.eq_def]
    split
    · simp_all
    · rename_i heq
      simp only [Scanner.mk.injEq, List.cons.injEq] at heq
      obtain ⟨hn, hl, hc, hch, hr⟩ := heq
      subst hn; subst hl; subst hc; subst hch; subst hr
      simp only [squote] at h1
      simp [hs, h1, h2, h3, h4, h5, h6, h7, popSome, squote]
  · intro starting buffer start_column name ln col hst
    have hs : ('\\' : Char) ≠ starting := by
      rcases hst with hst | hst <;> subst hst <;> decide
    rw [consume_string_loop.eq_def]
    split
    · simp_all
    · rename_i heq
      simp only [Scanner.mk.injEq, List.cons.injEq] at heq
      obtain ⟨hn, hl, hc, hch, hr⟩ := heq
      subst hn; subst hl; subst hc; subst hch; subst hr
      simp [hs, popSome]
  · intro starting buffer start_column name ln col
    rw [consume_string_loop]

/-- Witness for the amended string-escape claim at concrete inputs,
including the unknown-escape case both in cursor form and at the
character's own position for a non-newline character. -/
theorem c6_string_escapes_witness :
    consume_string_loop squote "" 1 ⟨"t", 1, 1, ['\\', 'n', squote]⟩ =
      consume_string_loop squote ("".push '\n') 1 ⟨"t", 1, 3, [squote]⟩ ∧
    consume_string_loop squote "" 1 ⟨"t", 1, 1, ['\\', 'a', squote]⟩ =
      (Except.error ⟨"unknown escape character " ++ String.singleton 'a' ++ " found",
         "t", 1, 3⟩, ⟨"t", 1, 3, [squote]⟩) ∧
    consume_string_loop squote "" 1 ⟨"t", 1, 1, ['\\', 'a', squote]⟩ =
      (Except.error ⟨"unknown escape character " ++ String.singleton 'a' ++ " found",
         (popSome 'a' [squote] ⟨"t", 1, 2, ['a', squote]⟩).src_name,
         (popSome 'a' [squote] ⟨"t", 1, 2, ['a', squote]⟩).src_ln,
         (popSome 'a' [squote] ⟨"t", 1, 2, ['a', squote]⟩).src_col⟩,
       popSome 'a' [squote] ⟨"t", 1, 2, ['a', squote]⟩) ∧
    consume_string_loop squote "" 1 ⟨"t", 1, 1, ['\\']⟩ =
      (Except.error ⟨"expected escape character, found EOF", "t", 1, 3⟩, ⟨"t", 1, 3, []⟩) ∧
    consume_string_loop squote "ab" 1 ⟨"t", 1, 3, []⟩ =
      (Except.error ⟨if squote = '"' then "expected \" token"
          else "expected " ++ String.singleton squote ++ " token", "t", 1, 4⟩,
       ⟨"t", 1, 4, []⟩) :=
  ⟨c6_string_escapes.1 squote "" 1 "t" 1 1 'n' '\n' [squote] (Or.inl rfl)
      (by simp),
   c6_string_escapes.2.2.1 squote "" 1 "t" 1 1 'a' [squote] (Or.inl rfl)
      (by decide) (by decide) (by decide) (by decide) (by decide) (by decide) (by decide),
   c6_string_escapes.2.1 squote "" 1 "t" 1 1 'a' [squote] (Or.inl rfl)
      (by decide) (by decide) (by decide) (by decide) (by decide) (by decide),
   c6_string_escapes.2.2.2.1 squote "" 1 "t" 1 1 (Or.inl rfl),
   c6_string_escapes.2.2.2.2 squote "ab" 1 "t" 1 3⟩

/-- Popping preserves the source name and leaves the tail, for some
resulting line and column. -/
theorem popSome_ex (c : Char) (rest : List Char) (s : Scanner) :
    ∃ ln2 col2, popSome c rest s = ⟨s.src_name, ln2, col2, rest⟩ := by
  by_cases h : c = '\n'
  · exact ⟨s.src_ln + 1, 0, by simp [popSome, h]⟩
  · exact ⟨s.src_ln, s.src_col + 1, by simp [popSome, h]⟩

/-- A successful string scan records `start_column` as the token column
and the line of the closing delimiter as the token line. -/
theorem consume_string_loop_ok (starting : Char) (n : Nat) :
    ∀ (buffer : String) (start_column : Nat) (name : String) (ln col : Nat) (src : List Char),
      src.length ≤ n →
      ∀ (t : Token) (s2 : Scanner),
        consume_string_loop starting buffer start_column ⟨name, ln, col, src⟩ =
          (Except.ok t, s2) →
        t.src_col = start_column ∧ t.src_ln = s2.src_ln := by
  induction n with
  | zero =>
    intro buffer start_column name ln col src hlen t s2 h
    have hsrc : src = [] := List.eq_nil_of_length_eq_zero (Nat.le_zero.mp hlen)
    subst hsrc
    rw [consume_string_loop.eq_1] at h
    simp at h
  | succ n ih =>
    intro buffer start_column name ln col src hlen t s2 h
    match src, hlen, h with
    | [], hlen, h =>
      rw [consume_string_loop.eq_1] at h
      simp at h
    | [c], hlen, h =>
      rw [consume_string_loop.eq_2] at h
      by_cases hc : c = starting
      · rw [if_pos hc] at h
        simp only [Prod.mk.injEq, Except.ok.injEq] at h
        obtain ⟨ht, hs⟩ := h
        subst ht; subst hs
        exact ⟨rfl, rfl⟩
      · rw [if_neg hc] at h
        by_cases hb : c = '\\'
        · rw [if_pos hb] at h
          simp at h
        · rw [if_neg hb] at h
          obtain ⟨lnA, colA, hA⟩ := popSome_ex c [] ⟨name, ln, col, [c]⟩
          rw [hA] at h
          exact ih (buffer.push c) start_column name lnA colA [] (by simp) t s2 h
    | c :: c1 :: rest1, hlen, h =>
      rw [consume_string_loop.eq_3] at h
      by_cases hc : c = starting
      · rw [if_pos hc] at h
        simp only [Prod.mk.injEq, Except.ok.injEq] at h
        obtain ⟨ht, hs⟩ := h
        subst ht; subst hs
        exact ⟨rfl, rfl⟩
      · rw [if_neg hc] at h
        by_cases hb : c = '\\'
        · rw [if_pos hb] at h
          obtain ⟨lnA, colA, hA⟩ := popSome_ex c (c1 :: rest1) ⟨name, ln, col, c :: c1 :: rest1⟩
          rw [hA] at h
          obtain ⟨lnB, colB, hB⟩ := popSome_ex c1 rest1 ⟨name, lnA, colA, c1 :: rest1⟩
          rw [hB] at h
          have hlen1 : rest1.length ≤ n := by
            simp only [List.length_cons] at hlen
            omega
          split at h
          · exact ih _ start_column name lnB colB rest1 hlen1 t s2 h
          · split at h
            · exact ih _ start_column name lnB colB rest1 hlen1 t s2 h
            · split at h
              · exact ih _ start_column name lnB colB rest1 hlen1 t s2 h
              · split at h
                · exact ih _ start_column name lnB colB rest1 hlen1 t s2 h
                · split at h
                  · exact ih _ start_column name lnB colB rest1 hlen1 t s2 h
                  · split at h
                    · exact ih _ start_column name lnB colB rest1 hlen1 t s2 h
                    · simp at h
        · rw [if_neg hb] at h
          obtain ⟨lnA, colA, hA⟩ := popSome_ex c (c1 :: rest1) ⟨name, ln, col, c :: c1 :: rest1⟩
          rw [hA] at h
          have hlen1 : (c1 :: rest1).length ≤ n := by
            simp only [List.length_cons] at hlen ⊢
            omega
          exact ih (buffer.push c) start_column name lnA colA (c1 :: rest1) hlen1 t s2 h


/-- Claim C1 counterexample: on the multi-line string input consisting of
a single-quoted string whose content is a, newline, b, the produced token
records line 2 (the line of the closing delimiter, not line 1 where the
string starts) and column 1 (the column of the opening delimiter, not
column 2 which immediately follows it). -/
theorem c1_string_position_counterexample :
    (Scanner.next ⟨"test", 1, 0, [squote, 'a', '\n', 'b', squote]⟩).1 =
      PullResult.tok ⟨TokenType.StringLiteral, "test", 2, 1, "a\nb"⟩ ∧
    (2 : Nat) ≠ 1 ∧ (1 : Nat) ≠ 2 := by
  refine ⟨?_, by decide, by decide⟩
  simp [Scanner.next, consume_whitespace, consume_comments, dispatch, is_dispatch_operator,
    squote, consume_string, consume_string_loop, popSome, pop, head_or_nul, is_whitespace,
    nulChar, is_identifier_character, is_alphanumeric, is_alphabetic, is_numeric,
    lbrace, rbrace]
  decide

/-- Claim C1 as amended: the string token records as column the scanner
column at entry to the string sub-scan, that is, the column of the
opening delimiter itself (the cursor after consuming it), captured
before the content is consumed; the recorded line is the scanner line
when the token is built, which is the line of the closing delimiter. -/
theorem c1_string_position (starting : Char) (s : Scanner) (t : Token) (s2 : Scanner)
    (h : consume_string starting s = (Except.ok t, s2)) :
    t.src_col = s.src_col ∧ t.src_ln = s2.src_ln := by
  obtain ⟨name, ln, col, src⟩ := s
  exact consume_string_loop_ok starting src.length "" col name ln col src le_rfl t s2 h

/-- Witness for the amended string-position claim at a concrete input. -/
theorem c1_string_position_witness :
    (⟨TokenType.StringLiteral, "t", 1, 1, "a"⟩ : Token).src_col =
      Scanner.src_col ⟨"t", 1, 1, ['a', squote]⟩ ∧
    (⟨TokenType.StringLiteral, "t", 1, 1, "a"⟩ : Token).src_ln =
      Scanner.src_ln ⟨"t", 1, 3, []⟩ :=
  c1_string_position squote ⟨"t", 1, 1, ['a', squote]⟩
    ⟨TokenType.StringLiteral, "t", 1, 1, "a"⟩ ⟨"t", 1, 3, []⟩
    (by simp [consume_string, consume_string_loop, popSome, squote]; decide)

end Atom
